import Mathlib

/-!
Verification of the metaverse_client packet codec and session bootstrap.

The Rust sources are embedded shallowly: bytes are natural numbers below 256 in
lists, UUIDs are their raw 16-byte form, fallible Rust functions return Except,
and Rust panics (slice indexing out of range, unwrap on Err/None) are modelled
as an explicit Panic outcome, distinct from returned errors, because a panic
propagates past the caller's error handling.
-/

namespace Metaverse

/-- UUIDs (the uuid crate) are modelled as their raw 16-byte form, the form in
which they travel on the wire. -/
abbrev Uuid := List Nat

/-- Little-endian 4-byte encoding of a 32-bit value, as in u32::to_le_bytes. -/
def le4 (n : Nat) : List Nat :=
  [n % 256, n / 256 % 256, n / 65536 % 256, n / 16777216 % 256]

/-- Little-endian read of the first four bytes of a list, as in
u32::from_le_bytes on a 4-byte slice. -/
def fromLe4 (l : List Nat) : Nat :=
  l.getD 0 0 + 256 * l.getD 1 0 + 65536 * l.getD 2 0 + 16777216 * l.getD 3 0

/-- Error outcomes of the decode pipeline. MalformedHeader, UnknownMessageType
and BodyTooShort are the taxonomy of returned errors; Panic models a Rust
panic, which is not a returned error value and propagates past match arms. -/
inductive PacketError
  | MalformedHeader
  | UnknownMessageType
  | BodyTooShort
  | Panic (msg : String)
  deriving DecidableEq, Repr

/-- Frequency classes of wire identifiers (models/header.rs). -/
inductive PacketFrequency
  | Low
  | Medium
  | High
  deriving DecidableEq, Repr

/-- Packet header, field for field as constructed in circuit_code.rs. -/
structure Header where
  id : Nat
  frequency : PacketFrequency
  reliable : Bool
  sequence_number : Nat
  appended_acks : Bool
  zerocoded : Bool
  resent : Bool
  ack_list : Option (List Nat)
  size : Option Nat
  deriving DecidableEq, Repr

/-- CircuitCode body (circuit_code.rs). -/
structure CircuitCodeData where
  code : Nat
  session_id : Uuid
  id : Uuid
  deriving DecidableEq, Repr

/-- Translation of CircuitCodeData::from_bytes (circuit_code.rs). The Rust code
indexes bytes[0..4], bytes[4..20] and bytes[20..36] directly; on a slice of
fewer than 36 bytes the indexing panics (it does not return an error), and any
bytes beyond the 36th are ignored. -/
def CircuitCodeData.from_bytes (bytes : List Nat) : Except PacketError CircuitCodeData :=
  if bytes.length < 36 then
    .error (.Panic "range end index out of range for slice")
  else
    .ok { code := fromLe4 (bytes.take 4)
          session_id := (bytes.drop 4).take 16
          id := (bytes.drop 20).take 16 }

/-- Translation of CircuitCodeData::to_bytes (circuit_code.rs): 4 bytes
little-endian code, then the 16 raw bytes of session_id, then the 16 raw bytes
of id. -/
def CircuitCodeData.to_bytes (d : CircuitCodeData) : List Nat :=
  le4 d.code ++ d.session_id ++ d.id

/-- Login request fields, as shown by the doc example in server_subscriber.rs
and section 6 of the spec. -/
structure Login where
  first : String
  last : String
  passwd : String
  start : String
  channel : String
  agree_to_tos : Bool
  read_critical : Bool
  url : String
  deriving DecidableEq, Repr

/-- CompleteAgentMovement body fields, as constructed in server_subscriber.rs. -/
structure CompleteAgentMovementData where
  circuit_code : Nat
  session_id : Uuid
  agent_id : Uuid
  deriving DecidableEq, Repr

/-- Closed tagged union of message bodies (packet_types.rs is not in src/; the
closed-variant shape follows circuit_code.rs and server_subscriber.rs, which
match on PacketType::CircuitCode and PacketType::Login). Only the variants the
visible code touches are included. -/
inductive PacketType
  | Login (l : Metaverse.Login)
  | CircuitCode (d : CircuitCodeData)
  | CompleteAgentMovement (d : CompleteAgentMovementData)
  deriving DecidableEq, Repr

/-- Encoding of a body variant (the PacketData trait's to_bytes). CircuitCode
comes from circuit_code.rs. Modelled from the spec: the Login and
CompleteAgentMovement body layouts are not in src/ and the spec does not fix
them; they never matter for the claims (a Login packet is intercepted, never
re-encoded, and no claim encodes a CompleteAgentMovement body), so Login
serializes to nothing and CompleteAgentMovement follows the family convention
of raw UUIDs plus a little-endian code. -/
def PacketType.to_bytes : PacketType → List Nat
  | .Login _ => []
  | .CircuitCode d => d.to_bytes
  | .CompleteAgentMovement d => d.agent_id ++ d.session_id ++ le4 d.circuit_code

/-- Modelled from the spec: the message type registry (packet_types.rs with
PacketType::from_id is not in src/). Per section 4.2 it dispatches on the
(frequency, id) pair, delegates field parsing to the variant, and fails with
UnknownMessageType on an unregistered pair, never coercing to a default.
CircuitCode is registered at (Low, 3), the identifier Packet::new_circuit_code
uses in circuit_code.rs. The spec does not fix the Login identifier; it is
modelled at (Low, 0), and since no Login wire layout is given, the recovered
Login fields are abstracted to defaults (no claim depends on them). -/
def PacketType.from_id (id : Nat) (frequency : PacketFrequency) (body_bytes : List Nat) :
    Except PacketError PacketType :=
  match frequency, id with
  | .Low, 3 => (CircuitCodeData.from_bytes body_bytes).map PacketType.CircuitCode
  | .Low, 0 => .ok (PacketType.Login ⟨"", "", "", "", "", false, false, ""⟩)
  | _, _ => .error .UnknownMessageType

/-- Big-endian read of four bytes of a list starting at position i. -/
def readBe4At (bytes : List Nat) (i : Nat) : Nat :=
  16777216 * bytes.getD i 0 + 65536 * bytes.getD (i + 1) 0 +
    256 * bytes.getD (i + 2) 0 + bytes.getD (i + 3) 0

/-- Trailing acknowledgment values: cnt big-endian 32-bit numbers starting at
position start. -/
def readAcks (bytes : List Nat) (start cnt : Nat) : List Nat :=
  (List.range cnt).map (fun k => readBe4At bytes (start + 4 * k))

/-- Modelled from the spec: Header::try_from_bytes (models/header.rs is not in
src/), following section 4.1. Byte 0 is the flag bitmask (zerocoded 0x80,
reliable 0x40, resent 0x20, appended_acks 0x10, the family convention the spec
refers to); bytes 1-4 are the big-endian sequence number; byte 5 is the extra
length field (tolerated); the identifier follows in tiers: a leading byte other
than 0xFF is a High 1-byte identifier, 0xFF then a byte other than 0xFF is a
Medium identifier, 0xFF 0xFF then two bytes big-endian is a Low identifier.
The field size is the offset immediately after the identifier bytes. If
appended_acks is set, the last byte of the buffer counts the trailing 4-byte
acknowledgment numbers located at the end of the buffer. Fewer bytes than any
of these reads need yields MalformedHeader. -/
def Header.try_from_bytes (bytes : List Nat) : Except PacketError Header :=
  if bytes.length < 7 then .error .MalformedHeader else
  let flags := bytes.getD 0 0
  let sequence_number := readBe4At bytes 1
  let tier : Except PacketError (PacketFrequency × Nat × Nat) :=
    if bytes.getD 6 0 ≠ 255 then .ok (.High, bytes.getD 6 0, 7)
    else if bytes.length < 8 then .error .MalformedHeader
    else if bytes.getD 7 0 ≠ 255 then .ok (.Medium, bytes.getD 7 0, 8)
    else if bytes.length < 10 then .error .MalformedHeader
    else .ok (.Low, 256 * bytes.getD 8 0 + bytes.getD 9 0, 10)
  match tier with
  | .error e => .error e
  | .ok (frequency, id, size) =>
    if flags / 16 % 2 = 1 then
      let cnt := bytes.getD (bytes.length - 1) 0
      if bytes.length < size + 4 * cnt + 1 then .error .MalformedHeader
      else
        .ok ⟨id, frequency, flags / 64 % 2 = 1, sequence_number, true,
             flags / 128 % 2 = 1, flags / 32 % 2 = 1,
             some (readAcks bytes (bytes.length - 1 - 4 * cnt) cnt), some size⟩
    else
      .ok ⟨id, frequency, flags / 64 % 2 = 1, sequence_number, false,
           flags / 128 % 2 = 1, flags / 32 % 2 = 1, none, some size⟩

/-- Modelled from the spec: Header::to_bytes (models/header.rs is not in
src/), section 4.1: the flag byte, the big-endian sequence number, a zero
extra-length byte, then the tiered identifier bytes. The acknowledgment list
travels at the end of the whole buffer, after the body, so header encoding
does not emit it. -/
def Header.to_bytes (h : Header) : List Nat :=
  ((if h.zerocoded then 128 else 0) + (if h.reliable then 64 else 0) +
      (if h.resent then 32 else 0) + (if h.appended_acks then 16 else 0)) ::
    h.sequence_number / 16777216 % 256 :: h.sequence_number / 65536 % 256 ::
    h.sequence_number / 256 % 256 :: h.sequence_number % 256 :: 0 ::
    (match h.frequency with
     | .High => [h.id % 256]
     | .Medium => [255, h.id % 256]
     | .Low => [255, 255, h.id / 256 % 256, h.id % 256])

/-- Packet: a header composed with a typed body (models/packet.rs; the body is
the closed PacketType union, the form circuit_code.rs constructs and
server_subscriber.rs matches on). -/
structure Packet where
  header : Header
  body : PacketType
  deriving DecidableEq, Repr

/-- Translation of the body slice computation inside Packet::from_bytes
(models/packet.rs): the body is bytes[size..] when size is below the buffer
length (size.unwrap_or(0)), otherwise empty. -/
def Packet.body_bytes (header : Header) (bytes : List Nat) : List Nat :=
  if header.size.getD 0 < bytes.length then bytes.drop (header.size.getD 0) else []

/-- Translation of Packet::from_bytes (models/packet.rs). The header decode
result is unwrapped: a header decode error is a panic, not a returned error.
The body slice is handed to the registry and a registry error propagates. -/
def Packet.from_bytes (bytes : List Nat) : Except PacketError Packet :=
  match Header.try_from_bytes bytes with
  | .error _ => .error (.Panic "called unwrap on an Err value")
  | .ok header =>
      (PacketType.from_id header.id header.frequency (Packet.body_bytes header bytes)).map
        (fun body => ⟨header, body⟩)

/-- Translation of Packet::to_bytes (models/packet.rs): header bytes then body
bytes. -/
def Packet.to_bytes (p : Packet) : List Nat :=
  p.header.to_bytes ++ p.body.to_bytes

/-- Translation of Packet::new_circuit_code (circuit_code.rs), field for
field. -/
def Packet.new_circuit_code (circuit_code_block : CircuitCodeData) : Packet :=
  ⟨⟨3, .Low, true, 0, false, false, false, none, none⟩,
   PacketType.CircuitCode circuit_code_block⟩

/-- Modelled from the spec: Packet::new_complete_agent_movement
(complete_agent_movement.rs is not in src/). It wraps a
CompleteAgentMovementData body in a freshly built reliable Low-frequency
header, mirroring new_circuit_code with the variant's own identifier. -/
def Packet.new_complete_agent_movement (d : CompleteAgentMovementData) : Packet :=
  ⟨⟨249, .Low, true, 0, false, false, false, none, none⟩,
   PacketType.CompleteAgentMovement d⟩

/-- Observable action of one iteration of the bridge loop: a decode failure is
logged and the datagram dropped, a Login body is handled by the bootstrap flow,
any other packet is forwarded to the Mailbox. -/
inductive BridgeEvent
  | dropped (e : PacketError)
  | loginHandled (l : Login)
  | forwarded (p : Packet)
  deriving DecidableEq, Repr

/-- Translation of the listen_for_ui_messages loop body (server_subscriber.rs)
over a list of received datagrams. Returns the events produced in order and
whether the loop crashed. The Rust match only catches a returned Err (warn and
continue); a Panic propagates out of the match and terminates the loop task, so
no later datagram is processed. A Login body is handled by handle_login (its
success or failure is logged either way and the loop continues); any other
packet is forwarded to the Mailbox unchanged via do_send. -/
def listen_for_ui_messages : List (List Nat) → List BridgeEvent × Bool
  | [] => ([], false)
  | d :: rest =>
    match Packet.from_bytes d with
    | .error (.Panic _) => ([], true)
    | .error e =>
        let r := listen_for_ui_messages rest
        (BridgeEvent.dropped e :: r.1, r.2)
    | .ok p =>
        match p.body with
        | .Login l =>
            let r := listen_for_ui_messages rest
            (BridgeEvent.loginHandled l :: r.1, r.2)
        | .CircuitCode _ =>
            let r := listen_for_ui_messages rest
            (BridgeEvent.forwarded p :: r.1, r.2)
        | .CompleteAgentMovement _ =>
            let r := listen_for_ui_messages rest
            (BridgeEvent.forwarded p :: r.1, r.2)

/-- Authentication response fields as used by handle_login
(server_subscriber.rs unwraps sim_port, sim_ip, agent_id and session_id, and
reads circuit_code directly, so the first four are optional and circuit_code
is not). -/
structure LoginResponse where
  sim_ip : Option String
  sim_port : Option Nat
  agent_id : Option Uuid
  session_id : Option Uuid
  circuit_code : Nat
  deriving DecidableEq, Repr

/-- Modelled from the spec: the SessionError kinds of crate::errors (errors.rs
is not in src/), exactly the variants server_subscriber.rs constructs: a login
error carrying its reason, and the phase-tagged Mailbox, CircuitCode and
CompleteAgentMovement send errors, each carrying a message. -/
inductive SessionError
  | Login (reason : String)
  | Mailbox (msg : String)
  | CircuitCode (msg : String)
  | CompleteAgentMovement (msg : String)
  deriving DecidableEq, Repr

/-- Session value sent to the Mailbox (fields as constructed in
server_subscriber.rs; socket starts empty and is filled by the transport
layer later). -/
structure Session where
  server_socket : Nat
  url : String
  agent_id : Uuid
  session_id : Uuid
  socket : Option Nat
  deriving DecidableEq, Repr

/-- Message kinds accepted by the Mailbox, as sent by handle_login. The
UiMessage notification carries the serde_json-serialized login response;
serialization is abstracted by carrying the response value itself. -/
inductive MailboxMsg
  | uiMessage (response : LoginResponse)
  | session (s : Session)
  | packet (p : Packet)
  deriving DecidableEq, Repr

/-- Outcome of handle_login: Ok(()), a returned SessionError, or a Rust
panic. -/
inductive HandleLoginResult
  | ok
  | err (e : SessionError)
  | panicked (msg : String)
  deriving DecidableEq, Repr

/-- Translation of handle_login (server_subscriber.rs). The remote
authentication call login_with_creds is the external interface of section 6
and enters as its result; Mailbox send outcomes enter as the oracle sendOk,
indexed by send position (0 = UiMessage notification, 1 = Session,
2 = CircuitCode packet, 3 = CompleteAgentMovement packet), each send awaited
before the next is issued. Returns the Mailbox sends attempted, in order,
paired with the outcome. Faithful points: a failed UiMessage send is only
logged (warn) and does not abort; the Session literal unwraps sim_port,
sim_ip, agent_id and session_id, so a missing field panics there, after the
UiMessage send; a failed Session, CircuitCode or CompleteAgentMovement send
returns the Mailbox, CircuitCode or CompleteAgentMovement error kind
respectively. -/
def handle_login (login_result : Except SessionError LoginResponse) (sendOk : Nat → Bool) :
    List MailboxMsg × HandleLoginResult :=
  match login_result with
  | .error e => ([], .err e)
  | .ok r =>
    let t0 := [MailboxMsg.uiMessage r]
    match r.sim_port, r.sim_ip, r.agent_id, r.session_id with
    | some server_socket, some url, some agent_id, some session_id =>
      let t1 := t0 ++ [MailboxMsg.session ⟨server_socket, url, agent_id, session_id, none⟩]
      if sendOk 1 = false then (t1, .err (.Mailbox "mailbox send failed")) else
      let t2 := t1 ++ [MailboxMsg.packet (Packet.new_circuit_code
        ⟨r.circuit_code, session_id, agent_id⟩)]
      if sendOk 2 = false then (t2, .err (.CircuitCode "mailbox send failed")) else
      let t3 := t2 ++ [MailboxMsg.packet (Packet.new_complete_agent_movement
        ⟨r.circuit_code, session_id, agent_id⟩)]
      if sendOk 3 = false then (t3, .err (.CompleteAgentMovement "mailbox send failed")) else
      (t3, .ok)
    | _, _, _, _ => (t0, .panicked "called unwrap on a None value")

/-- Concrete buffer with appended_acks set: flag byte 0x10, sequence number 1,
Low identifier 3 (CircuitCode), a 36-byte body of sevens, then one trailing
4-byte acknowledgment (value 9) and the count byte 1. -/
def ackBuf : List Nat :=
  [16, 0, 0, 0, 1, 0, 255, 255, 0, 3] ++ List.replicate 36 7 ++ [0, 0, 0, 9, 1]

/-- Concrete well-formed datagram: plain header, Low identifier 3, exactly 36
body bytes. -/
def goodDatagram : List Nat := [0, 0, 0, 0, 0, 0, 255, 255, 0, 3] ++ List.replicate 36 5

/-- Concrete datagram with a valid header and an unregistered High identifier. -/
def unknownDatagram : List Nat := [0, 0, 0, 0, 0, 0, 77]

/-- Concrete datagram whose Low CircuitCode body carries 37 bytes, one more
than the fixed 36. -/
def extraByteDatagram : List Nat := [0, 0, 0, 0, 0, 0, 255, 255, 0, 3] ++ List.replicate 37 2

/-- Packet that extraByteDatagram decodes to. -/
def extraBytePacket : Packet :=
  ⟨⟨3, .Low, false, 0, false, false, false, none, some 10⟩,
   PacketType.CircuitCode ⟨33686018, List.replicate 16 2, List.replicate 16 2⟩⟩

section Lemmas

instance {α β : Type} [DecidableEq α] [DecidableEq β] : DecidableEq (Except α β) := fun a b =>
  match a, b with
  | .error x, .error y =>
      if h : x = y then isTrue (by rw [h])
      else isFalse (fun hc => Except.noConfusion hc (fun hxy => h hxy))
  | .ok x, .ok y =>
      if h : x = y then isTrue (by rw [h])
      else isFalse (fun hc => Except.noConfusion hc (fun hxy => h hxy))
  | .error _, .ok _ => isFalse (fun hc => Except.noConfusion hc)
  | .ok _, .error _ => isFalse (fun hc => Except.noConfusion hc)

theorem le4_length (n : Nat) : (le4 n).length = 4 := rfl

theorem fromLe4_cons (a b c d : Nat) (rest : List Nat) :
    fromLe4 (a :: b :: c :: d :: rest) = a + 256 * b + 65536 * c + 16777216 * d := rfl

theorem fromLe4_le4 (n : Nat) (h : n < 4294967296) : fromLe4 (le4 n) = n := by
  simp only [le4, fromLe4_cons]
  omega

theorem take_len_append {α : Type} (n : Nat) (l1 l2 : List α) (h : l1.length = n) :
    (l1 ++ l2).take n = l1 := by
  subst h
  exact List.take_left l1 l2

theorem drop_len_append {α : Type} (n : Nat) (l1 l2 : List α) (h : l1.length = n) :
    (l1 ++ l2).drop n = l2 := by
  subst h
  exact List.drop_left l1 l2

theorem le4_fromLe4 (l : List Nat) (h4 : l.length = 4) (hb : ∀ b ∈ l, b < 256) :
    le4 (fromLe4 l) = l := by
  rcases l with _ | ⟨a, _ | ⟨b, _ | ⟨c, _ | ⟨d, _ | e⟩⟩⟩⟩ <;> simp_all
  have ha : a < 256 := hb.1
  have hbb : b < 256 := hb.2.1
  have hc : c < 256 := hb.2.2.1
  have hd : d < 256 := hb.2.2.2
  simp only [le4, fromLe4_cons, List.cons.injEq, and_true]
  refine ⟨?_, ?_, ?_, ?_⟩ <;> omega

/-- Decoding an encoded Low-frequency identifier-3 header followed by a
36-byte body recovers the header, with size set to the 10-byte header end. -/
theorem header_decode_encoded_low3 (rel rs z : Bool) (seq : Nat) (body : List Nat)
    (hseq : seq < 4294967296) (hlen : body.length = 36) :
    Header.try_from_bytes
        (Header.to_bytes ⟨3, .Low, rel, seq, false, z, rs, none, none⟩ ++ body) =
      Except.ok ⟨3, .Low, rel, seq, false, z, rs, none, some 10⟩ := by
  cases rel <;> cases rs <;> cases z <;>
  · unfold Header.try_from_bytes Header.to_bytes readBe4At
    simp only [List.cons_append, List.length_cons, List.length_append, hlen,
      List.getD_cons_zero, List.getD_cons_succ]
    norm_num
    omega

/-- Re-encoding the CircuitCodeData decoded from a byte-valued 36-byte slice
reproduces the slice. -/
theorem circuit_body_reencode (body : List Nat) (hlen : body.length = 36)
    (hmem : ∀ b ∈ body, b < 256) :
    CircuitCodeData.to_bytes
        ⟨fromLe4 (body.take 4), (body.drop 4).take 16, (body.drop 20).take 16⟩ = body := by
  unfold CircuitCodeData.to_bytes
  simp only
  rw [le4_fromLe4 (body.take 4) (by simp [hlen])
        (fun b hb => hmem b (List.mem_of_mem_take hb))]
  rw [show (body.drop 20).take 16 = body.drop 20 from
        List.take_of_length_le (by simp [hlen])]
  rw [show body.drop 20 = (body.drop 4).drop 16 from by rw [List.drop_drop]]
  rw [List.append_assoc, List.take_append_drop, List.take_append_drop]

/-- Bridge loop on a datagram decoding to a Login body: the login is handled,
nothing is forwarded. -/
theorem bridge_handles_login (bytes : List Nat) (p : Packet) (l : Login)
    (hdec : Packet.from_bytes bytes = Except.ok p) (hbody : p.body = PacketType.Login l) :
    listen_for_ui_messages [bytes] = ([BridgeEvent.loginHandled l], false) := by
  obtain ⟨hdr, b⟩ := p
  simp only at hbody
  subst hbody
  simp [listen_for_ui_messages, hdec]

/-- Bridge loop on a datagram decoding to a non-Login body: the packet is
forwarded to the Mailbox unchanged. -/
theorem bridge_forwards_non_login (bytes : List Nat) (p : Packet)
    (hdec : Packet.from_bytes bytes = Except.ok p)
    (hnl : ∀ l, p.body ≠ PacketType.Login l) :
    listen_for_ui_messages [bytes] = ([BridgeEvent.forwarded p], false) := by
  obtain ⟨hdr, b⟩ := p
  cases b with
  | Login l => exact absurd rfl (hnl l)
  | CircuitCode d => simp [listen_for_ui_messages, hdec]
  | CompleteAgentMovement d => simp [listen_for_ui_messages, hdec]

/-- Encode-decode-reencode round trip for a well-formed CircuitCode datagram:
any flag combination without appended acks, 32-bit sequence number, exactly 36
body bytes. -/
theorem packet_reencode_low3 (rel rs z : Bool) (seq : Nat) (body : List Nat)
    (hseq : seq < 4294967296) (hlen : body.length = 36) (hmem : ∀ b ∈ body, b < 256) :
    ∃ p, Packet.from_bytes
          (Header.to_bytes ⟨3, .Low, rel, seq, false, z, rs, none, none⟩ ++ body) =
        Except.ok p ∧
      (∀ l, p.body ≠ PacketType.Login l) ∧
      Packet.to_bytes p =
        Header.to_bytes ⟨3, .Low, rel, seq, false, z, rs, none, none⟩ ++ body := by
  have henclen : (Header.to_bytes ⟨3, .Low, rel, seq, false, z, rs, none, none⟩).length = 10 :=
    rfl
  have hdec := header_decode_encoded_low3 rel rs z seq body hseq hlen
  have hbb : Packet.body_bytes ⟨3, .Low, rel, seq, false, z, rs, none, some 10⟩
      (Header.to_bytes ⟨3, .Low, rel, seq, false, z, rs, none, none⟩ ++ body) = body := by
    unfold Packet.body_bytes
    rw [if_pos (by simp [henclen, hlen])]
    exact drop_len_append 10 _ _ henclen
  refine ⟨⟨⟨3, .Low, rel, seq, false, z, rs, none, some 10⟩,
    PacketType.CircuitCode
      ⟨fromLe4 (body.take 4), (body.drop 4).take 16, (body.drop 20).take 16⟩⟩,
    ?_, ?_, ?_⟩
  · unfold Packet.from_bytes
    simp only [hdec, hbb]
    unfold PacketType.from_id CircuitCodeData.from_bytes
    rw [if_neg (by omega)]
    rfl
  · intro l hc
    exact PacketType.noConfusion hc
  · unfold Packet.to_bytes PacketType.to_bytes
    simp only
    rw [circuit_body_reencode body hlen hmem]
    rfl

end Lemmas

/-- C10: every packet built by Packet::new_circuit_code carries header id 3,
Low frequency, reliable true, sequence number 0, resent, zerocoded and
appended_acks all false, and no ack list — so ack_list presence coincides with
appended_acks and the fresh packet has sequence number zero. -/
theorem C10_new_circuit_code_header (d : CircuitCodeData) :
    (Packet.new_circuit_code d).header.id = 3 ∧
    (Packet.new_circuit_code d).header.frequency = PacketFrequency.Low ∧
    (Packet.new_circuit_code d).header.reliable = true ∧
    (Packet.new_circuit_code d).header.sequence_number = 0 ∧
    (Packet.new_circuit_code d).header.resent = false ∧
    (Packet.new_circuit_code d).header.zerocoded = false ∧
    (Packet.new_circuit_code d).header.appended_acks = false ∧
    (Packet.new_circuit_code d).header.ack_list = none ∧
    (Packet.new_circuit_code d).header.ack_list.isSome =
      (Packet.new_circuit_code d).header.appended_acks ∧
    (Packet.new_circuit_code d).body = PacketType.CircuitCode d :=
  ⟨rfl, rfl, rfl, rfl, rfl, rfl, rfl, rfl, rfl, rfl⟩

/-- C3: behavior of CircuitCodeData::from_bytes at the claim's boundary
lengths. A 35-byte body makes the decode panic on an out-of-range slice index
(it is not a returned BodyTooShort error), a 36-byte body decodes, and a
37-byte body also decodes — the extra byte is silently ignored instead of
being rejected. -/
theorem C3_from_bytes_boundary_behavior :
    CircuitCodeData.from_bytes (List.replicate 35 0) =
      Except.error (PacketError.Panic "range end index out of range for slice") ∧
    CircuitCodeData.from_bytes (List.replicate 35 0) ≠
      Except.error PacketError.BodyTooShort ∧
    CircuitCodeData.from_bytes (List.replicate 36 1) =
      Except.ok ⟨16843009, List.replicate 16 1, List.replicate 16 1⟩ ∧
    CircuitCodeData.from_bytes (List.replicate 37 1) =
      Except.ok ⟨16843009, List.replicate 16 1, List.replicate 16 1⟩ := by
  refine ⟨by decide, by decide, by decide, by decide⟩

/-- C4: decoding the bytes produced by encoding any CircuitCodeData value with
a 32-bit code and 16-byte UUIDs succeeds and preserves code, session_id and id
exactly. -/
theorem C4_round_trip (d : CircuitCodeData) (hc : d.code < 4294967296)
    (hs : d.session_id.length = 16) (hi : d.id.length = 16) :
    CircuitCodeData.from_bytes (CircuitCodeData.to_bytes d) = Except.ok d := by
  obtain ⟨c, s, i⟩ := d
  simp only at hc hs hi
  have htb : CircuitCodeData.to_bytes ⟨c, s, i⟩ = le4 c ++ (s ++ i) := rfl
  have hlen : (CircuitCodeData.to_bytes ⟨c, s, i⟩).length = 36 := by
    rw [htb]
    simp [le4, hs, hi]
  have h4a : fromLe4 ((le4 c ++ (s ++ i)).take 4) = c := by
    rw [take_len_append 4 _ _ (le4_length c), fromLe4_le4 c hc]
  have h4b : ((le4 c ++ (s ++ i)).drop 4).take 16 = s := by
    rw [drop_len_append 4 _ _ (le4_length c), take_len_append 16 _ _ hs]
  have h20 : ((le4 c ++ (s ++ i)).drop 20).take 16 = i := by
    rw [← List.append_assoc,
        drop_len_append 20 _ _ (by simp [le4, hs]),
        List.take_of_length_le hi.le]
  unfold CircuitCodeData.from_bytes
  rw [if_neg (by rw [hlen]; omega), htb, h4a, h4b, h20]

/-- Concrete instantiation for the C4 round-trip theorem. -/
theorem C4_round_trip_witness :
    CircuitCodeData.from_bytes
        (CircuitCodeData.to_bytes ⟨7, List.replicate 16 2, List.replicate 16 3⟩) =
      Except.ok ⟨7, List.replicate 16 2, List.replicate 16 3⟩ :=
  C4_round_trip ⟨7, List.replicate 16 2, List.replicate 16 3⟩ (by decide) (by simp) (by simp)

/-- C5: for any CircuitCodeData value with 16-byte UUIDs, to_bytes produces
exactly 36 bytes: the 4 little-endian bytes of code, then the 16 raw bytes of
session_id, then the 16 raw bytes of id (no string or hyphen form), and the
first four bytes read back as the code modulo 2^32. -/
theorem C5_to_bytes_layout (d : CircuitCodeData)
    (hs : d.session_id.length = 16) (hi : d.id.length = 16) :
    (CircuitCodeData.to_bytes d).length = 36 ∧
    CircuitCodeData.to_bytes d =
      [d.code % 256, d.code / 256 % 256, d.code / 65536 % 256, d.code / 16777216 % 256]
        ++ d.session_id ++ d.id ∧
    ((CircuitCodeData.to_bytes d).drop 4).take 16 = d.session_id ∧
    (CircuitCodeData.to_bytes d).drop 20 = d.id ∧
    fromLe4 (CircuitCodeData.to_bytes d) = d.code % 4294967296 := by
  obtain ⟨c, s, i⟩ := d
  simp only at hs hi
  refine ⟨?_, rfl, ?_, ?_, ?_⟩
  · simp [CircuitCodeData.to_bytes, le4, hs, hi]
  · show ((le4 c ++ (s ++ i)).drop 4).take 16 = s
    rw [drop_len_append 4 _ _ (le4_length c), take_len_append 16 _ _ hs]
  · show (le4 c ++ (s ++ i)).drop 20 = i
    rw [← List.append_assoc, drop_len_append 20 _ _ (by simp [le4, hs])]
  · show fromLe4 (le4 c ++ (s ++ i)) = c % 4294967296
    simp only [le4, List.cons_append, List.nil_append, fromLe4_cons]
    omega

/-- Concrete instantiation for the C5 layout theorem. -/
theorem C5_to_bytes_layout_witness :
    (CircuitCodeData.to_bytes ⟨258, List.replicate 16 4, List.replicate 16 5⟩).length = 36 ∧
    CircuitCodeData.to_bytes ⟨258, List.replicate 16 4, List.replicate 16 5⟩ =
      [258 % 256, 258 / 256 % 256, 258 / 65536 % 256, 258 / 16777216 % 256]
        ++ List.replicate 16 4 ++ List.replicate 16 5 ∧
    ((CircuitCodeData.to_bytes ⟨258, List.replicate 16 4, List.replicate 16 5⟩).drop 4).take 16 =
      List.replicate 16 4 ∧
    (CircuitCodeData.to_bytes ⟨258, List.replicate 16 4, List.replicate 16 5⟩).drop 20 =
      List.replicate 16 5 ∧
    fromLe4 (CircuitCodeData.to_bytes ⟨258, List.replicate 16 4, List.replicate 16 5⟩) =
      258 % 4294967296 :=
  C5_to_bytes_layout ⟨258, List.replicate 16 4, List.replicate 16 5⟩ (by simp) (by simp)

/-- C9: at a buffer whose header has appended_acks set (ackBuf: 10 header
bytes, a 36-byte body, one trailing acknowledgment and its count byte), the
body-bytes slice Packet::from_bytes hands to the registry is bytes[10..51] —
41 bytes that still end with the 5 trailing acknowledgment bytes 0,0,0,9,1.
The trailing acknowledgment block is not excluded. -/
theorem C9_acks_not_excluded_from_body :
    (Header.try_from_bytes ackBuf).map Header.appended_acks = Except.ok true ∧
    (Header.try_from_bytes ackBuf).map (fun h => Packet.body_bytes h ackBuf) =
      Except.ok (List.replicate 36 7 ++ [0, 0, 0, 9, 1]) ∧
    (List.replicate 36 7 ++ [0, 0, 0, 9, 1]).length = 41 ∧
    (Header.try_from_bytes ackBuf).map (fun h => (Packet.body_bytes h ackBuf).length) =
      Except.ok 41 := by
  refine ⟨by decide, by decide, by decide, by decide⟩

/-- C7: a datagram whose bytes are too short for a header makes
Packet::from_bytes panic (the header decode error is unwrapped), which
terminates the bridge loop before a following well-formed datagram is
processed; by contrast a body-level decode failure (an unregistered
identifier) is a returned error that the loop logs, discards and survives,
processing the following datagram. -/
theorem C7_malformed_header_panics_loop_dies :
    Packet.from_bytes [0, 0, 0] =
      Except.error (PacketError.Panic "called unwrap on an Err value") ∧
    listen_for_ui_messages [[0, 0, 0], goodDatagram] = ([], true) ∧
    listen_for_ui_messages [unknownDatagram, goodDatagram] =
      ([BridgeEvent.dropped PacketError.UnknownMessageType,
        BridgeEvent.forwarded
          ⟨⟨3, .Low, false, 0, false, false, false, none, some 10⟩,
           PacketType.CircuitCode ⟨84215045, List.replicate 16 5, List.replicate 16 5⟩⟩],
       false) := by
  refine ⟨by decide, by decide, by decide⟩

/-- C1: when authentication succeeds with sim_ip, sim_port, agent_id and
session_id all present and every Mailbox send is accepted, handle_login
performs exactly four sends, in order: the UiMessage notification with the
login response, the Session value, the CircuitCode packet, then the
CompleteAgentMovement packet, and returns Ok. -/
theorem C1_bootstrap_send_order (r : LoginResponse) (sendOk : Nat → Bool)
    (ip : String) (port : Nat) (aid sid : Uuid)
    (hip : r.sim_ip = some ip) (hport : r.sim_port = some port)
    (haid : r.agent_id = some aid) (hsid : r.session_id = some sid)
    (hsend : ∀ n, sendOk n = true) :
    handle_login (Except.ok r) sendOk =
      ([MailboxMsg.uiMessage r,
        MailboxMsg.session ⟨port, ip, aid, sid, none⟩,
        MailboxMsg.packet (Packet.new_circuit_code ⟨r.circuit_code, sid, aid⟩),
        MailboxMsg.packet (Packet.new_complete_agent_movement ⟨r.circuit_code, sid, aid⟩)],
       HandleLoginResult.ok) := by
  simp [handle_login, hip, hport, haid, hsid, hsend]

/-- Concrete instantiation for the C1 ordering theorem. -/
theorem C1_bootstrap_send_order_witness :
    handle_login
        (Except.ok ⟨some "10.0.0.1", some 13000, some (List.replicate 16 1),
                    some (List.replicate 16 2), 7⟩)
        (fun _ => true) =
      ([MailboxMsg.uiMessage
          ⟨some "10.0.0.1", some 13000, some (List.replicate 16 1),
           some (List.replicate 16 2), 7⟩,
        MailboxMsg.session ⟨13000, "10.0.0.1", List.replicate 16 1, List.replicate 16 2, none⟩,
        MailboxMsg.packet (Packet.new_circuit_code
          ⟨7, List.replicate 16 2, List.replicate 16 1⟩),
        MailboxMsg.packet (Packet.new_complete_agent_movement
          ⟨7, List.replicate 16 2, List.replicate 16 1⟩)],
       HandleLoginResult.ok) :=
  C1_bootstrap_send_order _ _ "10.0.0.1" 13000 (List.replicate 16 1) (List.replicate 16 2)
    rfl rfl rfl rfl (fun _ => rfl)

/-- C6 counterexample: extraByteDatagram decodes to a non-Login packet whose
CircuitCode body slice carries 37 bytes; the bridge forwards the packet, but
re-encoding it yields 46 bytes, not the 47-byte input — the trailing extra
body byte is dropped, so byte-for-byte equality of re-encoding and input fails
for a decodable non-Login datagram. -/
theorem C6_counterexample_reencode_differs :
    Packet.from_bytes extraByteDatagram = Except.ok extraBytePacket ∧
    (∀ l, extraBytePacket.body ≠ PacketType.Login l) ∧
    listen_for_ui_messages [extraByteDatagram] =
      ([BridgeEvent.forwarded extraBytePacket], false) ∧
    Packet.to_bytes extraBytePacket ≠ extraByteDatagram ∧
    (Packet.to_bytes extraBytePacket).length = 46 ∧
    extraByteDatagram.length = 47 := by
  refine ⟨by decide, fun l hc => PacketType.noConfusion hc, by decide, by decide,
    by decide, by decide⟩

/-- C6 amended: a datagram decoding to a Login body is handled by the
bootstrap flow and never forwarded to the Mailbox; a datagram decoding to any
other body is forwarded unchanged, as the same Packet value; and re-encoding
the forwarded packet equals the decoded input byte for byte for canonically
framed datagrams — those that are the header encoding of a CircuitCode header
(any reliable/resent/zerocoded flags, a 32-bit sequence number, no appended
acks; the encoder writes a zero extra-length byte and only the four defined
flag bits) followed by exactly 36 byte-valued body bytes. (It does not hold
for every decodable non-Login datagram: bytes the decoder tolerates but the
encoder does not reproduce — trailing extra body bytes, per the
counterexample, and likewise a nonzero extra-length byte or undefined flag
bits — survive decoding yet change under re-encoding.) -/
theorem C6_login_intercepted_others_forwarded_unchanged :
    (∀ bytes p l, Packet.from_bytes bytes = Except.ok p →
      p.body = PacketType.Login l →
      listen_for_ui_messages [bytes] = ([BridgeEvent.loginHandled l], false)) ∧
    (∀ bytes p, Packet.from_bytes bytes = Except.ok p →
      (∀ l, p.body ≠ PacketType.Login l) →
      listen_for_ui_messages [bytes] = ([BridgeEvent.forwarded p], false)) ∧
    (∀ (rel rs z : Bool) (seq : Nat) (body : List Nat),
      seq < 4294967296 → body.length = 36 → (∀ b ∈ body, b < 256) →
      ∃ p, Packet.from_bytes
            (Header.to_bytes ⟨3, .Low, rel, seq, false, z, rs, none, none⟩ ++ body) =
          Except.ok p ∧
        (∀ l, p.body ≠ PacketType.Login l) ∧
        Packet.to_bytes p =
          Header.to_bytes ⟨3, .Low, rel, seq, false, z, rs, none, none⟩ ++ body) :=
  ⟨bridge_handles_login, bridge_forwards_non_login, packet_reencode_low3⟩

/-- Concrete instantiation of the C6 round-trip conjunct. -/
theorem C6_forward_unchanged_witness :
    ∃ p, Packet.from_bytes
          (Header.to_bytes ⟨3, .Low, false, 0, false, false, false, none, none⟩ ++
            List.replicate 36 8) = Except.ok p ∧
      (∀ l, p.body ≠ PacketType.Login l) ∧
      Packet.to_bytes p =
        Header.to_bytes ⟨3, .Low, false, 0, false, false, false, none, none⟩ ++
          List.replicate 36 8 :=
  C6_login_intercepted_others_forwarded_unchanged.2.2 false false false 0
    (List.replicate 36 8) (by decide) (by simp)
    (fun b hb => by rw [List.eq_of_mem_replicate hb]; omega)

/-- C8 counterexample: when the UiMessage notification send (the first of the
four post-authentication sends) fails and the rest succeed, handle_login does
not return an error — the failure is only logged and the flow continues
through all four sends to Ok. -/
theorem C8_counterexample_notification_failure_ignored :
    (fun n => !(n == 0) : Nat → Bool) 0 = false ∧
    handle_login
        (Except.ok ⟨some "10.0.0.2", some 9000, some (List.replicate 16 1),
                    some (List.replicate 16 2), 9⟩)
        (fun n => !(n == 0)) =
      ([MailboxMsg.uiMessage
          ⟨some "10.0.0.2", some 9000, some (List.replicate 16 1),
           some (List.replicate 16 2), 9⟩,
        MailboxMsg.session ⟨9000, "10.0.0.2", List.replicate 16 1, List.replicate 16 2, none⟩,
        MailboxMsg.packet (Packet.new_circuit_code
          ⟨9, List.replicate 16 2, List.replicate 16 1⟩),
        MailboxMsg.packet (Packet.new_complete_agent_movement
          ⟨9, List.replicate 16 2, List.replicate 16 1⟩)],
       HandleLoginResult.ok) := by
  refine ⟨rfl, by decide⟩

/-- C8 amended: a failure of the Session, CircuitCode or CompleteAgentMovement
send (steps 2-4) makes handle_login return an error instead of continuing,
each with its own distinct phase-specific kind (Mailbox, CircuitCode,
CompleteAgentMovement respectively); a failure of the UiMessage notification
send (step 1) is only logged and does not abort the flow. -/
theorem C8_phase_specific_send_errors (r : LoginResponse) (sendOk : Nat → Bool)
    (ip : String) (port : Nat) (aid sid : Uuid)
    (hip : r.sim_ip = some ip) (hport : r.sim_port = some port)
    (haid : r.agent_id = some aid) (hsid : r.session_id = some sid) :
    (sendOk 1 = false →
      handle_login (Except.ok r) sendOk =
        ([MailboxMsg.uiMessage r, MailboxMsg.session ⟨port, ip, aid, sid, none⟩],
         HandleLoginResult.err (SessionError.Mailbox "mailbox send failed"))) ∧
    (sendOk 1 = true → sendOk 2 = false →
      handle_login (Except.ok r) sendOk =
        ([MailboxMsg.uiMessage r, MailboxMsg.session ⟨port, ip, aid, sid, none⟩,
          MailboxMsg.packet (Packet.new_circuit_code ⟨r.circuit_code, sid, aid⟩)],
         HandleLoginResult.err (SessionError.CircuitCode "mailbox send failed"))) ∧
    (sendOk 1 = true → sendOk 2 = true → sendOk 3 = false →
      handle_login (Except.ok r) sendOk =
        ([MailboxMsg.uiMessage r, MailboxMsg.session ⟨port, ip, aid, sid, none⟩,
          MailboxMsg.packet (Packet.new_circuit_code ⟨r.circuit_code, sid, aid⟩),
          MailboxMsg.packet (Packet.new_complete_agent_movement ⟨r.circuit_code, sid, aid⟩)],
         HandleLoginResult.err (SessionError.CompleteAgentMovement "mailbox send failed"))) ∧
    (sendOk 1 = true → sendOk 2 = true → sendOk 3 = true →
      handle_login (Except.ok r) sendOk =
        ([MailboxMsg.uiMessage r, MailboxMsg.session ⟨port, ip, aid, sid, none⟩,
          MailboxMsg.packet (Packet.new_circuit_code ⟨r.circuit_code, sid, aid⟩),
          MailboxMsg.packet (Packet.new_complete_agent_movement ⟨r.circuit_code, sid, aid⟩)],
         HandleLoginResult.ok)) ∧
    (∀ m1 m2 m3 : String,
      SessionError.Mailbox m1 ≠ SessionError.CircuitCode m2 ∧
      SessionError.Mailbox m1 ≠ SessionError.CompleteAgentMovement m3 ∧
      SessionError.CircuitCode m2 ≠ SessionError.CompleteAgentMovement m3) := by
  refine ⟨?_, ?_, ?_, ?_, ?_⟩
  · intro h1
    simp [handle_login, hip, hport, haid, hsid, h1]
  · intro h1 h2
    simp [handle_login, hip, hport, haid, hsid, h1, h2]
  · intro h1 h2 h3
    simp [handle_login, hip, hport, haid, hsid, h1, h2, h3]
  · intro h1 h2 h3
    simp [handle_login, hip, hport, haid, hsid, h1, h2, h3]
  · intro m1 m2 m3
    refine ⟨fun hc => SessionError.noConfusion hc, fun hc => SessionError.noConfusion hc,
      fun hc => SessionError.noConfusion hc⟩

/-- Concrete instantiation of the C8 Session-send-failure branch. -/
theorem C8_phase_specific_send_errors_witness :
    handle_login
        (Except.ok ⟨some "10.0.0.3", some 9100, some (List.replicate 16 3),
                    some (List.replicate 16 4), 11⟩)
        (fun n => !(n == 1)) =
      ([MailboxMsg.uiMessage
          ⟨some "10.0.0.3", some 9100, some (List.replicate 16 3),
           some (List.replicate 16 4), 11⟩,
        MailboxMsg.session ⟨9100, "10.0.0.3", List.replicate 16 3, List.replicate 16 4, none⟩],
       HandleLoginResult.err (SessionError.Mailbox "mailbox send failed")) :=
  (C8_phase_specific_send_errors _ _ "10.0.0.3" 9100 (List.replicate 16 3)
    (List.replicate 16 4) rfl rfl rfl rfl).1 rfl

end Metaverse
